import Mathlib

/-
Shallow embedding of the FastAPI service in src/5.py (Art112-122/FastApi).

The relational store is modelled as an explicit record of table contents,
threaded through each handler.  Each route handler of the source file is
translated to a Lean function returning the new store together with the
HTTP outcome: a successful JSONResponse or a raised HTTPException.  The
aiomysql cursor calls are translated as follows:

  * SELECT ... WHERE col = v  with fetchone()  becomes  Option over the
    first matching row (fetchone returns None when the result set is
    empty, and a row tuple otherwise; the handlers test this with
    isinstance(resp, tuple));
  * the same SELECT with fetchall() (used only in delete_event) becomes
    the full list of matching rows: aiomysql fetchall returns the tuple
    of all result rows, which is the EMPTY tuple when there is no match,
    so isinstance(resp, tuple) is True in every case;
  * INSERT / UPDATE / DELETE followed by commit become functional updates
    of the store record.

Timestamps (DATETIME values) are modelled as integers; the pydantic
FutureDatetime constraint "value is strictly in the future" becomes a
strict integer comparison against the current instant.
-/

namespace FastApiSpec

/-- HTTPException as raised by the handlers: a status code and a detail
string.  An unhandled Python exception surfacing as an internal server
error is modelled with status 500. -/
structure HErr where
  statusCode : Nat
  detail : String
deriving Repr, DecidableEq

/-- JSONResponse returned on success: status code and body string. -/
structure Resp where
  statusCode : Nat
  body : String
deriving Repr, DecidableEq

/-- Row of the users table (src/5.py lines 111-120).  The isadmin column
is BOOLEAN; every row is inserted from a Python bool, so it is modelled
as Bool. -/
structure UserRow where
  id : Nat
  uname : String
  surname : String
  email : String
  password : String
  phone : String
  isadmin : Bool
deriving Repr, DecidableEq

/-- Row of the event table (src/5.py lines 98-106).  members is a TEXT
column holding a comma-joined list; time is a DATETIME modelled as Int. -/
structure EventRow where
  id : Nat
  title : String
  euser : String
  description : String
  members : String
  time : Int
deriving Repr, DecidableEq

/-- Row of the books table (src/5.py lines 125-133). -/
structure BookRow where
  id : Nat
  title : String
  author : String
  description : String
  count : Int
  year : Int
deriving Repr, DecidableEq

/-- The relational store: the three tables plus the AUTO_INCREMENT
counters for the id columns of users and event. -/
structure Db where
  users : List UserRow
  events : List EventRow
  books : List BookRow
  nextUserId : Nat
  nextEventId : Nat
deriving Repr, DecidableEq

/-- Pydantic model Event (src/5.py lines 27-32): payload of POST
/events/add/.  The FutureDatetime constraint on time is checked at
request-parsing time, before the handler runs. -/
structure Event where
  title : String
  euser : String
  description : String
  time : Int
deriving Repr, DecidableEq

/-- Pydantic model EventEdit (src/5.py lines 35-39): payload of PUT
/event/update/. -/
structure EventEdit where
  title : String
  euser : String
  description : String
deriving Repr, DecidableEq

/-- Pydantic model User (src/5.py lines 42-49): payload of POST
/users/add/. -/
structure User where
  uname : String
  surname : String
  email : String
  password : String
  phone : String
  is_admin : Bool
deriving Repr, DecidableEq

/-- SELECT isadmin FROM users WHERE name = n with fetchone(): the first
row whose name column equals n, or none. -/
def selectUserByName (db : Db) (n : String) : Option UserRow :=
  (db.users.filter (fun u => u.uname == n)).head?

/-- SELECT ... FROM event WHERE id = i with fetchone(). -/
def selectEventById (db : Db) (i : Nat) : Option EventRow :=
  (db.events.filter (fun e => e.id == i)).head?

/-- SELECT id FROM users WHERE id = i with fetchone(); the parameter is
the int query parameter member_id. -/
def selectUserById (db : Db) (i : Int) : Option UserRow :=
  (db.users.filter (fun u => (u.id : Int) == i)).head?

/-- A Python value appearing in the RSVP membership test: the stored
members field splits into str values, while the id selected from the
users table is an int. -/
inductive PyVal where
  | intv (n : Int)
  | strv (s : String)
deriving Repr, DecidableEq

/-- Python equality as used by the `in` operator: int and str values
compare equal only within the same type; an int never equals a str. -/
def pyEq : PyVal → PyVal → Bool
  | PyVal.intv a, PyVal.intv b => a == b
  | PyVal.strv a, PyVal.strv b => a == b
  | PyVal.intv _, PyVal.strv _ => false
  | PyVal.strv _, PyVal.intv _ => false

/-- Python list membership: v in l. -/
def pyIn (v : PyVal) (l : List PyVal) : Bool :=
  l.any (fun x => pyEq v x)

/-- Accumulating helper for pySplitComma: fragments collected so far are
built in reverse in acc. -/
def splitCommaAux : List Char → List Char → List String
  | [], acc => [String.mk acc.reverse]
  | c :: cs, acc =>
    if c = ',' then String.mk acc.reverse :: splitCommaAux cs []
    else splitCommaAux cs (c :: acc)

/-- Python str.split with separator a single comma: the empty string
splits to a list holding one empty fragment, and a trailing comma
produces a trailing empty fragment, exactly as in CPython. -/
def pySplitComma (s : String) : List String :=
  splitCommaAux s.data []

/-- Special characters checked by the password validator (src/5.py line
70). -/
def specialChars : String := "!@#$%^&*()_-+=[]\x7b\x7d|\\:;\x22\x27<>,.?/~\x60"

/-- validate_password (src/5.py lines 59-73).  The lowercase and
uppercase checks raise HTTPException 400; the digit and
special-character checks on lines 68-72 only CONSTRUCT an HTTPException
value without raising or returning it, so they have no effect and are
modelled as discarded let bindings. -/
def validate_password (v : String) : Except HErr String :=
  if !(v.data.any Char.isLower) then
    Except.error ⟨400, "Password must contain at least one lowercase letter"⟩
  else if !(v.data.any Char.isUpper) then
    Except.error ⟨400, "Password must contain at least one uppercase letter"⟩
  else
    let _unraisedDigit : Option HErr :=
      if !(v.data.any Char.isDigit) then
        some ⟨400, "Password must contain at least one digit"⟩
      else none
    let _unraisedSpecial : Option HErr :=
      if !(v.data.any (fun c => specialChars.contains c)) then
        some ⟨400, "Password must contain at least one special character"⟩
      else none
    Except.ok v

/-- check_letters (src/5.py lines 51-57): reject a value containing any
digit with HTTPException 400. -/
def check_letters (value : String) : Except HErr String :=
  if value.data.any Char.isDigit then
    Except.error ⟨400, "Fields name and surname must not contain numbers"⟩
  else
    Except.ok value

/-- create_event, POST /events/add/ (src/5.py lines 162-191): look up
isadmin by the payload user name; no row gives 404, a row with a falsy
flag gives 403, otherwise INSERT the event with members set to the empty
string and return 201. -/
def create_event (db : Db) (event : Event) : Db × Except HErr Resp :=
  match selectUserByName db event.euser with
  | none => (db, Except.error ⟨404, "User not found"⟩)
  | some u =>
    if u.isadmin then
      ({ db with
          events := db.events ++
            [⟨db.nextEventId, event.title, event.euser, event.description, "", event.time⟩],
          nextEventId := db.nextEventId + 1 },
       Except.ok ⟨201, "Event has been added."⟩)
    else
      (db, Except.error ⟨403, "User hasnt permissions for create event"⟩)

/-- create_user, POST /users/add/ (src/5.py lines 194-214): the handler
explicitly calls check_letters on name and surname and validate_password
on the password (the pydantic field validators are not registered, the
classmethod decorator being applied outside field_validator, but the
handler invokes the underlying functions directly); then INSERT.  The
UNIQUE constraint on the name column makes the driver raise
IntegrityError on a duplicate, which the handler translates to
HTTPException 400 with detail User already exists. -/
def create_user (db : Db) (user : User) : Db × Except HErr Resp :=
  match check_letters user.uname with
  | Except.error e => (db, Except.error e)
  | Except.ok _ =>
    match check_letters user.surname with
    | Except.error e => (db, Except.error e)
    | Except.ok _ =>
      match validate_password user.password with
      | Except.error e => (db, Except.error e)
      | Except.ok _ =>
        if db.users.any (fun u => u.uname == user.uname) then
          (db, Except.error ⟨400, "User already exists"⟩)
        else
          ({ db with
              users := db.users ++
                [⟨db.nextUserId, user.uname, user.surname, user.email,
                  user.password, user.phone, user.is_admin⟩],
              nextUserId := db.nextUserId + 1 },
           Except.ok ⟨201, "User has been added."⟩)

/-- MySQL numeric coercion of a string parameter compared against an
integer column: the leading (optionally signed) digit run of the string,
empty runs coercing to 0.  This models the comparison id = s for the
integer-valued and non-numeric strings the claims are about. -/
def leadingDigitsVal : List Char → Nat → Nat
  | [], acc => acc
  | c :: cs, acc =>
    if c.isDigit then leadingDigitsVal cs (10 * acc + (c.toNat - 48)) else acc

/-- Numeric value MySQL uses for the string s in the comparison with the
id column. -/
def mysqlNumCoerce (s : String) : Int :=
  match s.data with
  | '-' :: cs => -(leadingDigitsVal cs 0 : Int)
  | '+' :: cs => (leadingDigitsVal cs 0 : Int)
  | cs => (leadingDigitsVal cs 0 : Int)

/-- get_for_id_book, GET /books/get/\x7bbook_id\x7d (src/5.py lines
241-250): book_id is an unannotated path parameter, hence a raw string
with no request validation; the handler runs the parameterized SELECT
and returns the (possibly empty) list of rows, status 200. -/
def get_for_id_book (db : Db) (book_id : String) : Nat × List BookRow :=
  (200, db.books.filter (fun b => (b.id : Int) == mysqlNumCoerce book_id))

/-- get_for_id_event, GET /event/get/\x7bevent_id\x7d (src/5.py lines
253-262): same shape as get_for_id_book over the event table. -/
def get_for_id_event (db : Db) (event_id : String) : Nat × List EventRow :=
  (200, db.events.filter (fun e => (e.id : Int) == mysqlNumCoerce event_id))

/-- update_event, PUT /event/update/\x7bid\x7d (src/5.py lines 265-299):
authorize by the payload user name (404 / 403), then SELECT the event by
id (404 if absent), then UPDATE title and description of the rows with
that id and return 200. -/
def update_event (db : Db) (id : Nat) (event : EventEdit) : Db × Except HErr Resp :=
  match selectUserByName db event.euser with
  | none => (db, Except.error ⟨404, "User not found"⟩)
  | some u =>
    if u.isadmin then
      match selectEventById db id with
      | none => (db, Except.error ⟨404, "Event not found"⟩)
      | some _ =>
        ({ db with
            events := db.events.map (fun e =>
              if e.id == id then
                { e with title := event.title, description := event.description }
              else e) },
         Except.ok ⟨200, "Event has been updated."⟩)
    else
      (db, Except.error ⟨403, "User hasnt permissions for edit event"⟩)

/-- update_date handler body, PATCH /event/update/\x7bid\x7d/reschedule
(src/5.py lines 302-336): authorize, locate, then UPDATE the time
column. -/
def update_date (db : Db) (id : Nat) (user : String) (datetime_ : Int) :
    Db × Except HErr Resp :=
  match selectUserByName db user with
  | none => (db, Except.error ⟨404, "User not found"⟩)
  | some u =>
    if u.isadmin then
      match selectEventById db id with
      | none => (db, Except.error ⟨404, "Event not found"⟩)
      | some _ =>
        ({ db with
            events := db.events.map (fun e =>
              if e.id == id then { e with time := datetime_ } else e) },
         Except.ok ⟨200, "Event has been updated."⟩)
    else
      (db, Except.error ⟨403, "User hasnt permissions for edit event"⟩)

/-- The reschedule endpoint as seen by a client: the query parameter
datetime_ is declared FutureDatetime, so FastAPI validates it against
the current instant BEFORE invoking the handler, and a request
validation failure is answered by the framework default, 422
Unprocessable Entity, without any store statement running. -/
def update_date_request (now : Int) (db : Db) (id : Nat) (user : String)
    (datetime_ : Int) : Db × Except HErr Resp :=
  if now < datetime_ then update_date db id user datetime_
  else (db, Except.error ⟨422, "Input should be in the future"⟩)

/-- update_members, PATCH /event/update/\x7bid\x7d/rsvp (src/5.py lines
339-389): authorize, SELECT members of the event (404 if absent), SELECT
the member id from users (404 if absent), split the stored members field
on commas, and test `answer[0] not in list_` where answer[0] is the INT
id column and list_ holds str fragments: Python equality across int and
str is always False, which pyIn makes explicit.  If absent, append the
member id and a trailing comma to the stored string; otherwise 409. -/
def update_members (db : Db) (id : Nat) (user : String) (member_id : Int) :
    Db × Except HErr Resp :=
  match selectUserByName db user with
  | none => (db, Except.error ⟨404, "User not found"⟩)
  | some u =>
    if u.isadmin then
      match selectEventById db id with
      | none => (db, Except.error ⟨404, "Event not found"⟩)
      | some ev =>
        match selectUserById db member_id with
        | none => (db, Except.error ⟨404, "Member not found"⟩)
        | some answer =>
          let list_ : List PyVal := (pySplitComma ev.members).map PyVal.strv
          if pyIn (PyVal.intv (answer.id : Int)) list_ then
            (db, Except.error ⟨409, "Member already registed"⟩)
          else
            ({ db with
                events := db.events.map (fun e =>
                  if e.id == id then
                    { e with members := ev.members ++ toString member_id ++ "," }
                  else e) },
             Except.ok ⟨201, "Member has been added."⟩)
    else
      (db, Except.error ⟨403, "User hasnt permissions for edit event"⟩)

/-- delete_event, DELETE /event/delete/\x7bevent_id\x7d (src/5.py lines
392-427).  Unlike every other handler this one reads the authorization
query with fetchall(), so resp is the tuple of ALL matching rows: the
empty tuple when the user does not exist (isinstance(resp, tuple) is
still True and resp[0] raises IndexError, an unhandled exception
answered 500), and a tuple of row tuples otherwise, where resp[0] is the
whole first ROW, a one-element tuple that is truthy regardless of the
isadmin value it carries: every existing user passes the check.  After
that, locate the event (404 Task not found if absent) and DELETE it,
returning 201. -/
def delete_event (db : Db) (event_id : Nat) (user : String) : Db × Except HErr Resp :=
  match db.users.filter (fun u => u.uname == user) with
  | [] => (db, Except.error ⟨500, "IndexError"⟩)
  | _ :: _ =>
    match selectEventById db event_id with
    | none => (db, Except.error ⟨404, "Task not found"⟩)
    | some _ =>
      ({ db with events := db.events.filter (fun e => !(e.id == event_id)) },
       Except.ok ⟨201, "Event has been deleted."⟩)

/-- Sample store used by the concrete theorems: an administrator alice,
a non-administrator bob, a non-administrator with user id 7, and one
event with id 1 created by alice. -/
def adminAlice : UserRow := ⟨1, "alice", "smith", "alice@mail.io", "aA", "1234567890", true⟩

def plainBob : UserRow := ⟨2, "bob", "jones", "bob@mail.io", "aA", "1234567890", false⟩

def member7 : UserRow := ⟨7, "carl", "stone", "carl@mail.io", "aA", "1234567890", false⟩

def ev1 : EventRow := ⟨1, "party", "alice", "a gathering", "", 1000⟩

def dbMain : Db :=
  { users := [adminAlice, plainBob, member7]
    events := [ev1]
    books := []
    nextUserId := 8
    nextEventId := 2 }

/-- Store after the first RSVP of member 7 on event 1. -/
def dbRsvp1 : Db := { dbMain with events := [{ ev1 with members := "7," }] }

/-- Store after the second RSVP of member 7 on event 1. -/
def dbRsvp2 : Db := { dbMain with events := [{ ev1 with members := "7,7," }] }

/-- Store after alice edits event 1 with title meeting and description
work. -/
def dbEdited : Db :=
  { dbMain with events := [{ ev1 with title := "meeting", description := "work" }] }

/-- C1: the claim states that every mutating event operation answers 404
when the acting user is absent and 403 when present without the
administrator flag.  delete_event violates both: with the existing
non-administrator bob it deletes event 1 and answers 201, and with a
name matching no user it raises IndexError (500), because fetchall
yields a tuple of rows whose first element is a truthy row tuple, or is
empty. -/
theorem delete_event_breaks_auth_check :
    delete_event dbMain 1 "bob" =
      ({ dbMain with events := [] }, Except.ok ⟨201, "Event has been deleted."⟩) ∧
    delete_event dbMain 1 "nosuchuser" =
      (dbMain, Except.error ⟨500, "IndexError"⟩) :=
  ⟨rfl, rfl⟩

/-- C2: the claim states that an RSVP whose member_id is already in the
stored members list answers 409 and leaves members unchanged.  In the
code the membership test compares the INT id against the str fragments
of the split members field, which is always False in Python, so the
second identical RSVP also answers 201 and appends the id again. -/
theorem duplicate_rsvp_is_not_conflict :
    update_members dbMain 1 "alice" 7 =
      (dbRsvp1, Except.ok ⟨201, "Member has been added."⟩) ∧
    update_members dbRsvp1 1 "alice" 7 =
      (dbRsvp2, Except.ok ⟨201, "Member has been added."⟩) ∧
    (201 : Nat) ≠ 409 :=
  ⟨rfl, rfl, by decide⟩

/-- C3 counterexample: a reschedule whose datetime_ is in the past is
answered with status 422, the FastAPI default for request validation
failures, not with the status 400 the claim states. -/
theorem past_reschedule_status_is_422_not_400 :
    update_date_request 100 dbMain 1 "alice" 50 =
      (dbMain, Except.error ⟨422, "Input should be in the future"⟩) ∧
    (422 : Nat) ≠ 400 :=
  ⟨rfl, by decide⟩

/-- C3 amended: for every store and every datetime_ not strictly after
the current instant, the reschedule request is rejected with a 422
validation error and the store is returned unchanged; the conclusion
holds for EVERY store, so no store statement influences the outcome. -/
theorem past_reschedule_rejected_before_store (now : Int) (db : Db) (id : Nat)
    (user : String) (dt : Int) (h : dt ≤ now) :
    update_date_request now db id user dt =
      (db, Except.error ⟨422, "Input should be in the future"⟩) := by
  unfold update_date_request
  rw [if_neg (not_lt.mpr h)]

/-- C3 witness: the amended theorem applied at a concrete boundary
input, datetime_ equal to the current instant. -/
theorem past_reschedule_rejected_before_store_witness :
    update_date_request 100 dbMain 1 "alice" 100 =
      (dbMain, Except.error ⟨422, "Input should be in the future"⟩) :=
  past_reschedule_rejected_before_store 100 dbMain 1 "alice" 100 (by decide)

/-- C4: the claim states that an existing non-administrator acting on a
missing event id is answered 403, never the event 404.  For delete_event
the broken fetchall check lets the non-administrator bob through, and
the missing event 99 is then answered 404 Task not found. -/
theorem delete_nonadmin_missing_event_is_404 :
    delete_event dbMain 99 "bob" = (dbMain, Except.error ⟨404, "Task not found"⟩) ∧
    (404 : Nat) ≠ 403 :=
  ⟨rfl, by decide⟩

/-- C5: the password validator raises a 400 error for every password
missing a lowercase or missing an uppercase letter, and returns every
password having both unchanged, the digit and special-character branches
never rejecting. -/
theorem validate_password_policy (v : String) :
    ((v.data.any Char.isLower = false ∨ v.data.any Char.isUpper = false) →
      ∃ d, validate_password v = Except.error ⟨400, d⟩) ∧
    (v.data.any Char.isLower = true → v.data.any Char.isUpper = true →
      validate_password v = Except.ok v) := by
  refine ⟨fun h => ?_, fun hl hu => ?_⟩
  · cases hlow : v.data.any Char.isLower with
    | false =>
      exact ⟨"Password must contain at least one lowercase letter",
        by simp [validate_password, hlow]⟩
    | true =>
      have hup : v.data.any Char.isUpper = false := by
        rcases h with h | h
        · rw [h] at hlow; exact absurd hlow (by simp)
        · exact h
      exact ⟨"Password must contain at least one uppercase letter",
        by simp [validate_password, hlow, hup]⟩
  · simp [validate_password, hl, hu]

/-- C5 witness: a password with both cases and neither digit nor special
character is accepted unchanged, and a password without an uppercase
letter is rejected with status 400. -/
theorem validate_password_policy_witness :
    validate_password "aA" = Except.ok "aA" ∧
    (∃ d, validate_password "ab" = Except.error ⟨400, d⟩) :=
  ⟨(validate_password_policy "aA").2 (by decide) (by decide),
   (validate_password_policy "ab").1 (Or.inr (by decide))⟩

/-- C6: a successful edit changes only the title and description columns
of the rows carrying the targeted id: users, books, and the id counters
are untouched, and row for row the id, user, time, and members fields
are preserved, rows with another id being wholly unchanged and rows with
the targeted id taking the payload title and description. -/
theorem update_event_frame (db : Db) (id : Nat) (ev : EventEdit) (db2 : Db)
    (r : Resp) (h : update_event db id ev = (db2, Except.ok r)) :
    db2.users = db.users ∧ db2.books = db.books ∧
    db2.nextUserId = db.nextUserId ∧ db2.nextEventId = db.nextEventId ∧
    List.Forall₂ (fun e e2 : EventRow =>
      e2.id = e.id ∧ e2.euser = e.euser ∧ e2.time = e.time ∧
      e2.members = e.members ∧
      (e.id ≠ id → e2 = e) ∧
      (e.id = id → e2.title = ev.title ∧ e2.description = ev.description))
      db.events db2.events := by
  unfold update_event at h
  split at h
  · simp at h
  · split at h
    · split at h
      · simp at h
      · injection h with h1 h2
        subst h1
        refine ⟨rfl, rfl, rfl, rfl, ?_⟩
        rw [List.forall₂_map_right_iff, List.forall₂_same]
        intro e _
        by_cases hid : e.id = id
        · simp [hid]
        · simp [hid]
    · simp at h

/-- C6 witness: editing event 1 of the sample store as alice preserves
everything except the title and description of the targeted row. -/
theorem update_event_frame_witness :
    dbEdited.users = dbMain.users ∧ dbEdited.books = dbMain.books ∧
    dbEdited.nextUserId = dbMain.nextUserId ∧
    dbEdited.nextEventId = dbMain.nextEventId ∧
    List.Forall₂ (fun e e2 : EventRow =>
      e2.id = e.id ∧ e2.euser = e.euser ∧ e2.time = e.time ∧
      e2.members = e.members ∧
      (e.id ≠ 1 → e2 = e) ∧
      (e.id = 1 → e2.title = "meeting" ∧ e2.description = "work"))
      dbMain.events dbEdited.events :=
  update_event_frame dbMain 1 ⟨"meeting", "alice", "work"⟩ dbEdited
    ⟨200, "Event has been updated."⟩ rfl

/-- C7: when no event row matches the requested id, the GET-by-id event
endpoint answers 200 with the empty list rather than a 404. -/
theorem get_missing_event_is_200_empty (db : Db) (s : String)
    (h : db.events.filter (fun e => (e.id : Int) == mysqlNumCoerce s) = []) :
    get_for_id_event db s = (200, []) := by
  unfold get_for_id_event
  rw [h]

/-- C7 witness: requesting event 999 of the sample store, which has only
event 1, yields 200 with an empty list. -/
theorem get_missing_event_witness : get_for_id_event dbMain "999" = (200, []) :=
  get_missing_event_is_200_empty dbMain "999" rfl

/-- C8: for every store and every event payload whose user resolves to a
row with the administrator flag set, creation appends exactly one event
row holding the supplied title, user, description and time with an empty
members field; the statement quantifies over arbitrary stored events, so
no event-existence lookup gates the insert. -/
theorem create_event_inserts (db : Db) (event : Event) (u : UserRow)
    (hu : selectUserByName db event.euser = some u) (ha : u.isadmin = true) :
    ∃ row : EventRow,
      create_event db event =
        ({ db with events := db.events ++ [row], nextEventId := db.nextEventId + 1 },
         Except.ok ⟨201, "Event has been added."⟩) ∧
      row.members = "" ∧ row.title = event.title ∧ row.euser = event.euser ∧
      row.description = event.description ∧ row.time = event.time := by
  refine ⟨⟨db.nextEventId, event.title, event.euser, event.description, "", event.time⟩,
    ?_, rfl, rfl, rfl, rfl, rfl⟩
  simp [create_event, hu, ha]

/-- C8 witness: alice, an administrator of the sample store, creates an
event; the inserted row carries her payload and an empty members
field. -/
theorem create_event_inserts_witness :
    ∃ row : EventRow,
      create_event dbMain ⟨"picnic", "alice", "outdoor", 2000⟩ =
        ({ dbMain with
            events := dbMain.events ++ [row]
            nextEventId := dbMain.nextEventId + 1 },
         Except.ok ⟨201, "Event has been added."⟩) ∧
      row.members = "" ∧ row.title = "picnic" ∧ row.euser = "alice" ∧
      row.description = "outdoor" ∧ row.time = 2000 :=
  create_event_inserts dbMain ⟨"picnic", "alice", "outdoor", 2000⟩ adminAlice rfl rfl

/-- C9: a user-creation payload that passes the explicit name, surname
and password checks but repeats a stored name is answered 400 User
already exists and the store is returned unchanged. -/
theorem create_user_duplicate_rejected (db : Db) (user : User)
    (h1 : user.uname.data.any Char.isDigit = false)
    (h2 : user.surname.data.any Char.isDigit = false)
    (h3 : user.password.data.any Char.isLower = true)
    (h4 : user.password.data.any Char.isUpper = true)
    (hdup : db.users.any (fun u => u.uname == user.uname) = true) :
    create_user db user = (db, Except.error ⟨400, "User already exists"⟩) := by
  simp [create_user, check_letters, validate_password, h1, h2, h3, h4, hdup]

/-- C9 witness: re-adding the stored name alice with a valid payload is
rejected with 400 User already exists and the sample store is
unchanged. -/
theorem create_user_duplicate_rejected_witness :
    create_user dbMain ⟨"alice", "smith", "x@mail.io", "aA", "1234567890", false⟩ =
      (dbMain, Except.error ⟨400, "User already exists"⟩) :=
  create_user_duplicate_rejected dbMain
    ⟨"alice", "smith", "x@mail.io", "aA", "1234567890", false⟩
    (by decide) (by decide) (by decide) (by decide) (by decide)

/-- C10: the GET-by-id endpoints take the path parameter as a raw,
unannotated string: for every string, numeric or not, both handlers run
the SELECT and answer 200 with a possibly empty list, no validation
rejecting the request beforehand. -/
theorem get_by_id_accepts_any_string (db : Db) (s : String) :
    (∃ l, get_for_id_book db s = (200, l)) ∧
    (∃ l, get_for_id_event db s = (200, l)) :=
  ⟨⟨_, rfl⟩, ⟨_, rfl⟩⟩

end FastApiSpec
